import Mathlib

/-!
Verification development for the mcp-sse relay (middleware.py, weather_stdio.py).

The Python sources are shallowly embedded: JSON-compatible values become an
inductive `Json` type; each HTTP handler becomes a pure function from the
decoded request body (and an abstract environment for the spawned child
process) to the response it produces; exceptions become `Except`/explicit
result constructors; a coroutine that can be blocked forever is given an
explicit `diverges` outcome.  Nondeterministic parts of the environment
(outcome of spawning the child process, behaviour of the weather tools,
which themselves call an external HTTP API) are parameters of the model.
-/

namespace McpSse

/-- JSON-compatible Python values, as produced by `json.loads` /
`await request.json()`.  Objects are association lists in insertion order;
a parsed Python `dict` has pairwise-distinct keys.  Numbers are modelled
as integers (the claims under study never depend on float semantics). -/
inductive Json where
  | null : Json
  | bool (b : Bool) : Json
  | num (n : Int) : Json
  | str (s : String) : Json
  | arr (xs : List Json) : Json
  | obj (fields : List (String × Json)) : Json
deriving Repr, Inhabited

/-- Python `==` between a JSON-decoded value and a string literal: true
exactly when the value is that string (comparison between a string and a
value of any other type is `False` in Python, never an error). -/
def Json.eqStr (j : Json) (s : String) : Bool :=
  match j with
  | .str t => t == s
  | _ => false

/-- Python truthiness (`bool(x)`) of a JSON-decoded value: `None`, `False`,
`0`, `""`, `[]`, `{}` are falsy, everything else truthy.  Used by
`if not session_id or not tool_name` in `handle_messages`. -/
def Json.truthy : Json → Bool
  | .null => false
  | .bool b => b
  | .num n => n != 0
  | .str s => s != ""
  | .arr xs => !xs.isEmpty
  | .obj fs => !fs.isEmpty

/-- Dictionary lookup, `d.get(k)`, returning `none` when the key is absent
(Python returns `None`).  Keys of a parsed dict are distinct, so first
match is the match. -/
def jget : List (String × Json) → String → Option Json
  | [], _ => none
  | (k', v') :: rest, k => if k' == k then some v' else jget rest k

/-- Dictionary item assignment `d[k] = v` on an association list: replaces
the binding in place if the key is present, otherwise appends (Python
dicts keep insertion order). -/
def setKey : List (String × Json) → String → Json → List (String × Json)
  | [], k, v => [(k, v)]
  | (k', v') :: rest, k, v =>
      if k' == k then (k, v) :: rest else (k', v') :: setKey rest k v

/-- The CPython type name of the value, as it appears in exception texts. -/
def pyTypeName : Json → String
  | .null => "NoneType"
  | .bool _ => "bool"
  | .num _ => "int"
  | .str _ => "str"
  | .arr _ => "list"
  | .obj _ => "dict"

/-- Message of the `AttributeError` raised by `x.get(...)` when `x` is not a
dict (modelled on CPython's message text). -/
def getAttrErrMsg (j : Json) : String :=
  "'" ++ pyTypeName j ++ "' object has no attribute 'get'"

/-- Message of the `TypeError` raised by `x["k"] = v` when `x` is not a dict
(modelled on CPython's message text). -/
def setItemErrMsg (j : Json) : String :=
  match j with
  | .arr _ => "list indices must be integers or slices, not str"
  | _ => "'" ++ pyTypeName j ++ "' object does not support item assignment"

/-- `data.get(k)`: raises `AttributeError` (the `.error` case, carrying
`str(e)`) when `data` is not a dict, otherwise returns the value or `none`. -/
def pyGet (data : Json) (k : String) : Except String (Option Json) :=
  match data with
  | .obj fs => .ok (jget fs k)
  | other => .error (getAttrErrMsg other)

/-- Python's `str.strip()` with no argument: remove leading and trailing
whitespace (modelled over the ASCII whitespace the relayed strings can
contain). -/
def pyStrip (s : String) : String :=
  ⟨((s.data.dropWhile Char.isWhitespace).reverse.dropWhile Char.isWhitespace).reverse⟩

/-- `data[k] = v`: raises `TypeError` when `data` is not a dict, otherwise
the updated dict. -/
def pySetItem (data : Json) (k : String) (v : Json) : Except String Json :=
  match data with
  | .obj fs => .ok (.obj (setKey fs k v))
  | other => .error (setItemErrMsg other)

/-- Minimal model of Python's `json.dumps` with default separators
(`", "` and `": "`).  Control characters other than the common escapes are
left as-is; the values serialised in this development contain none. -/
def jsonEscapeChar (c : Char) : String :=
  if c = '"' then "\\\""
  else if c = '\\' then "\\\\"
  else if c = '\n' then "\\n"
  else if c = '\t' then "\\t"
  else if c = '\r' then "\\r"
  else String.singleton c

/-- Escape a string body for `json.dumps`. -/
def jsonEscape (s : String) : String :=
  String.join (s.data.map jsonEscapeChar)

/-- `json.dumps` on a JSON value (default separators). -/
def jsonDumps : Json → String
  | .null => "null"
  | .bool true => "true"
  | .bool false => "false"
  | .num n => toString n
  | .str s => "\"" ++ jsonEscape s ++ "\""
  | .arr xs => "[" ++ String.intercalate ", " (xs.attach.map (fun x => jsonDumps x.1)) ++ "]"
  | .obj fs => "\x7b" ++ String.intercalate ", "
      (fs.attach.map (fun f => "\"" ++ jsonEscape f.1.1 ++ "\": " ++ jsonDumps f.1.2)) ++ "\x7d"
decreasing_by
  · have := List.sizeOf_lt_of_mem x.2
    simp only [Json.arr.sizeOf_spec]
    omega
  · rcases f with ⟨⟨a, b⟩, hmem⟩
    have := List.sizeOf_lt_of_mem hmem
    simp only [Json.obj.sizeOf_spec, Prod.mk.sizeOf_spec] at this ⊢
    omega

/-! ## `run_mcp_tool` (middleware.py, lines 22-61)

The function spawns `python server_path` as a child process, writes one JSON
line `{"tool_name": ..., "arguments": ...}` to its stdin and awaits
`process.communicate` — with no timeout.  The environment's resolution of
the spawn-and-exchange is a `SpawnOutcome`; it may depend on the payload
written to the child, so theorems that compose the relay with the weather
child instantiate it from the child model below. -/

/-- Outcome of `create_subprocess_exec` + `communicate` for one invocation.
`hangs` is a child that never terminates: `communicate` never returns.
`raised` is any other `Exception` escaping the spawn/communicate calls. -/
inductive SpawnOutcome where
  | fileNotFound : SpawnOutcome
  | raised (msg : String) : SpawnOutcome
  | hangs : SpawnOutcome
  | completed (returncode : Int) (stdout stderr : String) : SpawnOutcome
deriving Repr

/-- A Python exception value as far as `run_mcp_tool`'s handlers look at it. -/
inductive PyExn where
  | fileNotFound (path : String) : PyExn
  | other (msg : String) : PyExn
deriving Repr

/-- `str(e)` of the exception, as interpolated into error messages. -/
def PyExn.render : PyExn → String
  | .fileNotFound p => "[Errno 2] No such file or directory: '" ++ p ++ "'"
  | .other m => m

/-- Result of calling an async Python function: it returns a value, lets an
exception escape, or never returns at all. -/
inductive RunResult where
  | returns (s : String) : RunResult
  | raises (e : PyExn) : RunResult
  | diverges : RunResult
deriving Repr

/-- The single JSON line written to the child process's stdin
(`input_data`, middleware.py line 28). -/
def mcp_input (tool_name tool_args : Json) : Json :=
  .obj [("tool_name", tool_name), ("arguments", tool_args)]

/-- The `try:` body of `run_mcp_tool` (middleware.py lines 26-52): spawn,
exchange, then either the non-zero-exit error string or the stripped
stdout.  Exceptions propagate; a never-terminating child means the awaited
`communicate` never returns. -/
def run_mcp_tool_try (server_path : String) (env : Json → SpawnOutcome)
    (tool_name tool_args : Json) : RunResult :=
  match env (mcp_input tool_name tool_args) with
  | .fileNotFound => .raises (.fileNotFound server_path)
  | .raised m => .raises (.other m)
  | .hangs => .diverges
  | .completed rc out err =>
      if rc != 0 then
        .returns ("MCP server exited with code " ++ toString rc ++ "\n" ++ err)
      else
        .returns (pyStrip out)

/-- The `except FileNotFoundError` / `except Exception` handlers of
`run_mcp_tool` (middleware.py lines 54-61): every exception is converted
into an error string which is returned normally. -/
def catchRun (r : RunResult) : RunResult :=
  match r with
  | .raises (.fileNotFound p) => .returns ("Error: Server file not found at " ++ p)
  | .raises (.other m) => .returns ("Error running MCP server: " ++ m)
  | other => other

/-- `run_mcp_tool` (middleware.py lines 22-61): the `try:` body wrapped in
its exception handlers. -/
def run_mcp_tool (server_path : String) (env : Json → SpawnOutcome)
    (tool_name tool_args : Json) : RunResult :=
  catchRun (run_mcp_tool_try server_path env tool_name tool_args)

/-! ## `handle_messages` (middleware.py, lines 94-122) -/

/-- What one call of the request handler does: produce an HTTP response
(status code plus JSON body), or never return because the awaited tool run
never returns. -/
inductive DispatchResult where
  | response (status : Nat) (body : Json) : DispatchResult
  | diverges : DispatchResult
deriving Repr

/-- The fixed 400 message for a missing/falsy `session_id` or `tool_name`
(middleware.py line 105). -/
def missingFieldMsg : String := "Invalid request: Missing session_id or tool_name"

/-- The `try:` body of `handle_messages` after the request body has been
decoded (middleware.py lines 100-113).  `.error msg` is an uncaught
exception carrying `str(e)`, to be handled by the outer `except Exception`. -/
def handle_messages_try (server_path : String) (env : Json → SpawnOutcome)
    (data : Json) : Except String DispatchResult := do
  let session_id := (← pyGet data "session_id").getD Json.null
  let tool_name := (← pyGet data "tool_name").getD Json.null
  let tool_args := (← pyGet data "arguments").getD (Json.obj [])
  if !session_id.truthy || !tool_name.truthy then
    return .response 400 (Json.obj [("error", Json.str missingFieldMsg)])
  let tool_args ← pySetItem tool_args "session_id" session_id
  match run_mcp_tool server_path env tool_name tool_args with
  | .returns s => return .response 200 (Json.obj [("result", Json.str s)])
  | .raises e => Except.error e.render
  | .diverges => return .diverges

/-- `handle_messages` (middleware.py lines 94-122).  `body = none` models a
request whose body fails to decode as JSON (`json.JSONDecodeError` → 400);
any other exception from the body hits `except Exception` → 500. -/
def handle_messages (server_path : String) (env : Json → SpawnOutcome)
    (body : Option Json) : DispatchResult :=
  match body with
  | none => .response 400 (Json.obj [("error", Json.str "Invalid JSON")])
  | some data =>
      match handle_messages_try server_path env data with
      | .ok r => r
      | .error e =>
          .response 500 (Json.obj [("error", Json.str ("Error processing message: " ++ e))])

/-! ## `handle_sse` / `event_stream` (middleware.py, lines 67-92)

The SSE generator's observable behaviour is its sequence of yields and
sleeps.  `uuid.uuid4()` is an external random source; the session id is a
parameter.  The loop body contains no `yield`: each un-cancelled iteration
is a bare 60-second sleep. -/

/-- The callback address handed to the caller (middleware.py line 72). -/
def messages_url (session_id : String) : String :=
  "/messages/?session_id=" ++ session_id

/-- The payload of the single handshake event (middleware.py line 78). -/
def endpoint_payload (session_id : String) : Json :=
  Json.obj [("messages_url", Json.str (messages_url session_id))]

/-- The one SSE chunk the generator yields (middleware.py lines 77-79). -/
def endpoint_chunk (session_id : String) : String :=
  "event: endpoint\ndata: " ++ jsonDumps (endpoint_payload session_id) ++ "\n\n"

/-- An observable action of the async generator: yielding a chunk to the
transport, or awaiting a sleep of the given duration. -/
inductive StreamOp where
  | emit (chunk : String) : StreamOp
  | sleep (duration : Nat) : StreamOp
deriving Repr

/-- The trace of `event_stream` (middleware.py lines 75-90) over `iters`
un-cancelled loop iterations: the initial endpoint yield, then one
60-unit sleep per iteration — the `while True:` body yields nothing. -/
def event_stream_trace (session_id : String) (iters : Nat) : List StreamOp :=
  StreamOp.emit (endpoint_chunk session_id) :: List.replicate iters (StreamOp.sleep 60)

/-- The chunks actually sent on the push channel in a trace. -/
def emitted (t : List StreamOp) : List String :=
  t.filterMap (fun op => match op with | .emit c => some c | .sleep _ => none)

/-! ## The weather child process (weather_stdio.py, lines 108-141)

`main` reads one JSON line from stdin, dispatches on `tool_name`, and for a
recognised tool awaits `get_forecast(**tool_args)` or
`get_alerts(**tool_args)`.  Those coroutines call an external HTTP API, and
the keyword expansion itself can raise `TypeError` on mismatched argument
names; both are abstracted into an evaluation oracle.  An uncaught
exception in `main` aborts `asyncio.run`, so the interpreter exits with
code 1 and the exception's diagnostic on stderr. -/

/-- Outcome of awaiting one tool coroutine with the given keyword
arguments: a returned string, or an exception (keyword mismatch, or an
error escaping the tool body). -/
inductive ToolEval where
  | ok (s : String) : ToolEval
  | raise (msg : String) : ToolEval

/-- Exit state of the child process for one relay exchange: Python exit
code, captured stdout and captured stderr. -/
structure ChildExit where
  code : Int
  stdout : String
  stderr : String
deriving Repr

/-- The diagnostic of the `NameError` raised at `if results:` when neither
tool branch ran (weather_stdio.py line 132): `results` was never bound.
The stderr of a crashed child is modelled as this final diagnostic line of
the interpreter's traceback. -/
def nameErrMsg : String := "NameError: name 'results' is not defined"

/-- stdout printed by the recognised-tool branches (weather_stdio.py lines
126-134): the branch's debug `print`, then, when `results` is truthy, the
JSON response line.  `print(a, b)` separates its arguments with one
space. -/
def weather_tool_stdout (debugLine : String) (results : String) : String :=
  debugLine ++ " " ++ results ++ "\n" ++
    (if results != "" then jsonDumps (Json.obj [("result", Json.str results)]) ++ "\n" else "")

/-- One loop iteration of `main` on a decoded request object
(weather_stdio.py lines 119-134): argument extraction, optional top-level
`session_id` injection, tool dispatch.  `.ok` carries the stdout this
iteration writes; `.error` is an uncaught exception's diagnostic. -/
def weather_handle (eval : String → Json → ToolEval) (j : Json) :
    Except String String := do
  let tool_args := (← pyGet j "arguments").getD (Json.obj [])
  let tool_args ←
    match ← pyGet j "session_id" with
    | some v => pySetItem tool_args "session_id" v
    | none => pure tool_args
  let tn := (← pyGet j "tool_name").getD Json.null
  if tn.eqStr "get_forecast" then
    match eval "get_forecast" tool_args with
    | .ok s => return weather_tool_stdout "results: " s
    | .raise m => Except.error m
  else if tn.eqStr "get_alerts" then
    match eval "get_alerts" tool_args with
    | .ok s => return weather_tool_stdout "results" s
    | .raise m => Except.error m
  else Except.error nameErrMsg

/-- The whole child process run for one relay exchange (weather_stdio.py
lines 108-141): one request line (or a JSON decode failure, `req = none`),
then EOF.  On a clean pass the loop's second iteration sees EOF, prints
`No request found` to stderr and exits 0; an uncaught exception exits 1
with its diagnostic on stderr. -/
def weather_step (eval : String → Json → ToolEval) (req : Option Json) : ChildExit :=
  match req with
  | none => ⟨0, "Bad request found\n", "Invalid JSON received\nNo request found\n"⟩
  | some j =>
      match weather_handle eval j with
      | .ok out => ⟨0, out, "No request found\n"⟩
      | .error m => ⟨1, "", m⟩

/-- The spawn environment induced by running weather_stdio.py as the child:
the payload written by `run_mcp_tool` is the line the child reads. -/
def weather_env (eval : String → Json → ToolEval) : Json → SpawnOutcome :=
  fun payload =>
    let e := weather_step eval (some payload)
    .completed e.code e.stdout e.stderr

/-! ## Statement helpers -/

/-- A correlated request body of the documented shape
`{"session_id": ..., "tool_name": ..., "arguments": {...}}`. -/
def requestBody (sid tn : String) (args : List (String × Json)) : Json :=
  Json.obj [("session_id", Json.str sid), ("tool_name", Json.str tn),
            ("arguments", Json.obj args)]

/-- An HTTP status code in the client-error class. -/
def is4xx (n : Nat) : Prop := 400 ≤ n ∧ n ≤ 499

/-- How `handle_messages` maps the outcome of its `run_mcp_tool` call to an
HTTP response (middleware.py lines 111-113 and 119-122): a returned string
becomes `200 {"result": ...}`; an escaping exception hits
`except Exception` and becomes `500 {"error": ...}`; a call that never
returns leaves the dispatcher blocked. -/
def wrap_run : RunResult → DispatchResult
  | .returns s => .response 200 (Json.obj [("result", Json.str s)])
  | .raises e =>
      .response 500 (Json.obj [("error", Json.str ("Error processing message: " ++ e.render))])
  | .diverges => .diverges

/-! ## Shared lemmas -/

/-- Assigning a key makes it present with the assigned value. -/
theorem jget_setKey_self (fs : List (String × Json)) (k : String) (v : Json) :
    jget (setKey fs k v) k = some v := by
  induction fs with
  | nil => simp [setKey, jget]
  | cons hd tl ih =>
      obtain ⟨k', v'⟩ := hd
      by_cases h : k' = k
      · simp [setKey, h, jget]
      · simp [setKey, h, jget, ih]

/-- On a request body of the documented shape with truthy `session_id` and
`tool_name`, `handle_messages` reduces to the response mapping of one
`run_mcp_tool` call on the argument dict with `session_id` injected. -/
theorem dispatch_valid (sp : String) (env : Json → SpawnOutcome)
    (sid tn : String) (args : List (String × Json))
    (hsid : sid ≠ "") (htn : tn ≠ "") :
    handle_messages sp env (some (requestBody sid tn args)) =
      wrap_run (run_mcp_tool sp env (Json.str tn)
        (Json.obj (setKey args "session_id" (Json.str sid)))) := by
  have hs : (sid != "") = true := by simpa using hsid
  have ht : (tn != "") = true := by simpa using htn
  simp [handle_messages, handle_messages_try, requestBody, pyGet, jget,
    Json.truthy, Except.bind, bind, pySetItem, wrap_run, hs, ht]
  cases run_mcp_tool sp env (Json.str tn)
      (Json.obj (setKey args "session_id" (Json.str sid))) <;> rfl

/-- Same reduction when the `arguments` key is absent: the empty-dict
default is used, so the tool receives `{"session_id": sid}` alone. -/
theorem dispatch_valid_noargs (sp : String) (env : Json → SpawnOutcome)
    (sid tn : String) (hsid : sid ≠ "") (htn : tn ≠ "") :
    handle_messages sp env
        (some (Json.obj [("session_id", Json.str sid), ("tool_name", Json.str tn)])) =
      wrap_run (run_mcp_tool sp env (Json.str tn)
        (Json.obj [("session_id", Json.str sid)])) := by
  have hs : (sid != "") = true := by simpa using hsid
  have ht : (tn != "") = true := by simpa using htn
  simp [handle_messages, handle_messages_try, pyGet, jget,
    Json.truthy, Except.bind, bind, pySetItem, setKey, wrap_run, hs, ht]
  cases run_mcp_tool sp env (Json.str tn) (Json.obj [("session_id", Json.str sid)]) <;> rfl

/-- The push channel only ever carries the handshake chunk, no matter how
many keep-alive sleep iterations have passed. -/
theorem emitted_event_stream_trace (sid : String) (iters : Nat) :
    emitted (event_stream_trace sid iters) = [endpoint_chunk sid] := by
  have h : List.filterMap
      (fun op => match op with | StreamOp.emit c => some c | StreamOp.sleep _ => none)
      (List.replicate iters (StreamOp.sleep 60)) = [] := by
    rw [List.filterMap_eq_nil_iff]
    intro a ha
    rw [List.eq_of_mem_replicate ha]
  simp [emitted, event_stream_trace, h]

/-! ## Claims -/

/-- C1, counterexample: the dispatcher keeps no session registry, so a POST
whose `session_id` was never issued by anyone (the issued-id history is
empty) is still dispatched and answered with a 200 success carrying a
`result` — refuting the claim that such a request always yields a client
error and never a success. -/
theorem unissued_session_accepted :
    "never-issued" ∉ ([] : List String) ∧
    handle_messages "weather_stdio.py" (fun _ => .completed 0 "alerts text" "")
        (some (requestBody "never-issued" "get_alerts" [])) =
      .response 200 (Json.obj [("result", Json.str "alerts text")]) :=
  ⟨by simp, rfl⟩

/-- C1, amended: `handle_messages` performs no session-registry lookup at
all.  It answers 400 exactly when `session_id` or `tool_name` is missing or
falsy; whenever both are truthy strings (and `arguments` is an object), the
request is dispatched and a cleanly exiting child produces a 200 success
carrying a `result` — for every issued-id history, including ones that do
not contain the request's session id. -/
theorem no_session_registry_check (sp : String) (env : Json → SpawnOutcome)
    (issued : List String) (sid tn out err : String) (args : List (String × Json))
    (hsid : sid ≠ "") (htn : tn ≠ "") (hnot : sid ∉ issued) :
    handle_messages sp (fun _ => .completed 0 out err) (some (requestBody sid tn args)) =
      .response 200 (Json.obj [("result", Json.str (pyStrip out))]) ∧
    handle_messages sp env (some (Json.obj [("tool_name", Json.str tn)])) =
      .response 400 (Json.obj [("error", Json.str missingFieldMsg)]) := by
  constructor
  · rw [dispatch_valid sp _ sid tn args hsid htn]
    rfl
  · simp [handle_messages, handle_messages_try, pyGet, jget, Json.truthy,
      Except.bind, bind, pure, Except.pure]

/-- Witness for `no_session_registry_check` at a concrete unissued id. -/
theorem no_session_registry_check_witness :
    handle_messages "weather_stdio.py" (fun _ => .completed 0 "x" "")
        (some (requestBody "sid-1" "get_alerts" [])) =
      .response 200 (Json.obj [("result", Json.str (pyStrip "x"))]) ∧
    handle_messages "weather_stdio.py" (fun _ => .completed 0 "x" "")
        (some (Json.obj [("tool_name", Json.str "get_alerts")])) =
      .response 400 (Json.obj [("error", Json.str missingFieldMsg)]) :=
  no_session_registry_check "weather_stdio.py" (fun _ => .completed 0 "x" "")
    [] "sid-1" "get_alerts" "x" "" [] (by decide) (by decide) (by simp)

/-- C2, counterexample: with the child exiting non-zero with stderr
`network unreachable`, the dispatcher's response is a 200 whose body has a
`result` field and no `error` field — refuting the claim that the body
carries an `error` field (and not a `result` field). -/
theorem nonzero_exit_wrapped_in_result :
    handle_messages "weather_stdio.py" (fun _ => .completed 1 "" "network unreachable")
        (some (requestBody "s" "get_forecast" [])) =
      .response 200 (Json.obj [("result",
        Json.str "MCP server exited with code 1\nnetwork unreachable")]) ∧
    jget [("result", Json.str "MCP server exited with code 1\nnetwork unreachable")]
      "error" = none :=
  ⟨rfl, rfl⟩

/-- C2, amended: a handler failure (non-zero exit) is reported as a
transport-success (200) response whose `result` field — not an `error`
field, which the body lacks — carries the failure text, and that text does
include the child's stderr diagnostic. -/
theorem nonzero_exit_result_carries_stderr (sp : String) (sid tn out err : String)
    (args : List (String × Json)) (rc : Int)
    (hrc : rc ≠ 0) (hsid : sid ≠ "") (htn : tn ≠ "") :
    ∃ s, handle_messages sp (fun _ => .completed rc out err)
          (some (requestBody sid tn args)) =
        .response 200 (Json.obj [("result", Json.str s)]) ∧
      (∃ pre, s = pre ++ err) ∧
      jget [("result", Json.str s)] "error" = none := by
  refine ⟨"MCP server exited with code " ++ toString rc ++ "\n" ++ err, ?_,
    ⟨"MCP server exited with code " ++ toString rc ++ "\n", rfl⟩, rfl⟩
  rw [dispatch_valid sp _ sid tn args hsid htn]
  simp [run_mcp_tool, run_mcp_tool_try, catchRun, wrap_run, hrc]

/-- Witness for `nonzero_exit_result_carries_stderr` at exit code 1 and
stderr `network unreachable`. -/
theorem nonzero_exit_result_carries_stderr_witness :
    ∃ s, handle_messages "weather_stdio.py"
          (fun _ => .completed 1 "" "network unreachable")
          (some (requestBody "s" "get_forecast" [])) =
        .response 200 (Json.obj [("result", Json.str s)]) ∧
      (∃ pre, s = pre ++ "network unreachable") ∧
      jget [("result", Json.str s)] "error" = none :=
  nonzero_exit_result_carries_stderr "weather_stdio.py" "s" "get_forecast" ""
    "network unreachable" [] 1 (by decide) (by decide) (by decide)

/-- C3, counterexample: a child that never terminates makes `run_mcp_tool`
— and with it the dispatcher — block forever: no timeout failure is ever
reported, refuting the claim of a bounded wait with forced termination. -/
theorem hanging_child_never_returns :
    run_mcp_tool "weather_stdio.py" (fun _ => .hangs)
        (Json.str "get_alerts") (Json.obj []) = .diverges ∧
    handle_messages "weather_stdio.py" (fun _ => .hangs)
        (some (requestBody "s" "get_alerts" [])) = .diverges :=
  ⟨rfl, rfl⟩

/-- C3, amended: `run_mcp_tool` awaits `process.communicate` with no
deadline whatsoever: for every never-terminating child it never returns,
and the dispatcher handling the request blocks indefinitely instead of
producing a timeout failure. -/
theorem no_deadline_on_child_wait (sp sid tn : String)
    (args : List (String × Json)) (tool_name tool_args : Json)
    (hsid : sid ≠ "") (htn : tn ≠ "") :
    run_mcp_tool sp (fun _ => .hangs) tool_name tool_args = .diverges ∧
    handle_messages sp (fun _ => .hangs) (some (requestBody sid tn args)) =
      .diverges := by
  constructor
  · rfl
  · rw [dispatch_valid sp _ sid tn args hsid htn]
    rfl

/-- Witness for `no_deadline_on_child_wait` at a concrete request. -/
theorem no_deadline_on_child_wait_witness :
    run_mcp_tool "weather_stdio.py" (fun _ => .hangs)
        (Json.str "get_forecast") (Json.obj []) = .diverges ∧
    handle_messages "weather_stdio.py" (fun _ => .hangs)
        (some (requestBody "s2" "get_forecast" [])) = .diverges :=
  no_deadline_on_child_wait "weather_stdio.py" "s2" "get_forecast" []
    (Json.str "get_forecast") (Json.obj []) (by decide) (by decide)

/-- C4, counterexample: after two full 60-unit sleep intervals the stream
has still emitted only the handshake chunk — no keep-alive signal was ever
sent on the push channel, refuting the claimed periodic keep-alive
emission. -/
theorem no_keepalive_after_two_intervals :
    emitted (event_stream_trace "abc" 2) = [endpoint_chunk "abc"] ∧
    (emitted (event_stream_trace "abc" 2)).length = 1 :=
  ⟨rfl, rfl⟩

/-- C4, amended: while the connection stays alive, the stream handler's
loop merely sleeps in fixed 60-unit intervals and emits nothing: however
many intervals elapse, the handshake chunk remains the only data ever sent
on the push channel. -/
theorem keepalive_loop_is_silent (sid : String) (iters : Nat) :
    event_stream_trace sid iters =
      StreamOp.emit (endpoint_chunk sid) ::
        List.replicate iters (StreamOp.sleep 60) ∧
    emitted (event_stream_trace sid iters) = [endpoint_chunk sid] :=
  ⟨rfl, emitted_event_stream_trace sid iters⟩

/-- C5: on every push-channel connection the stream's first action is to
emit exactly one `endpoint` event — before anything else, and the only
emission however long the stream lives — whose payload is the JSON object
with a single `messages_url` string field embedding the session id as the
`session_id` query parameter of the callback URL. -/
theorem endpoint_handshake_first_and_unique (sid : String) (iters : Nat) :
    (event_stream_trace sid iters).head? =
      some (StreamOp.emit (endpoint_chunk sid)) ∧
    emitted (event_stream_trace sid iters) = [endpoint_chunk sid] ∧
    endpoint_chunk sid =
      "event: endpoint\ndata: " ++ jsonDumps (endpoint_payload sid) ++ "\n\n" ∧
    endpoint_payload sid =
      Json.obj [("messages_url", Json.str ("/messages/?session_id=" ++ sid))] :=
  ⟨rfl, emitted_event_stream_trace sid iters, rfl, rfl⟩

/-- C6, counterexample: a well-formed JSON body that is not an object — here
`[1]` — lacks the `session_id` and `tool_name` fields, yet the dispatcher
answers 500 (the `.get` call raises `AttributeError`, caught by the generic
`except Exception`), not a 4xx client error as claimed. -/
theorem non_object_body_yields_500 :
    handle_messages "weather_stdio.py" (fun _ => .completed 0 "" "")
        (some (Json.arr [Json.num 1])) =
      .response 500 (Json.obj [("error",
        Json.str "Error processing message: 'list' object has no attribute 'get'")]) ∧
    ¬ is4xx 500 :=
  ⟨rfl, by simp [is4xx]⟩

/-- C6, amended: malformed JSON yields 400 `{"error": "Invalid JSON"}`, and a
JSON **object** body lacking `session_id` or `tool_name` yields 400 with an
error string naming both fields (so in particular the missing one); a
well-formed non-object body instead lands in the 500 internal-fault branch. -/
theorem missing_field_yields_400 (sp : String) (env : Json → SpawnOutcome)
    (fs : List (String × Json))
    (h : jget fs "session_id" = none ∨ jget fs "tool_name" = none) :
    handle_messages sp env none =
      .response 400 (Json.obj [("error", Json.str "Invalid JSON")]) ∧
    handle_messages sp env (some (Json.obj fs)) =
      .response 400 (Json.obj [("error", Json.str missingFieldMsg)]) ∧
    is4xx 400 ∧
    (∃ pre post, missingFieldMsg = pre ++ "session_id" ++ post) ∧
    (∃ pre post, missingFieldMsg = pre ++ "tool_name" ++ post) := by
  refine ⟨rfl, ?_, by simp [is4xx],
    ⟨"Invalid request: Missing ", " or tool_name", rfl⟩,
    ⟨"Invalid request: Missing session_id or ", "", rfl⟩⟩
  rcases h with h | h <;>
    simp [handle_messages, handle_messages_try, pyGet, jget, Json.truthy,
      Except.bind, bind, pure, Except.pure, h]

/-- Witness for `missing_field_yields_400`: a body carrying only
`tool_name`. -/
theorem missing_field_yields_400_witness :
    handle_messages "weather_stdio.py" (fun _ => .completed 0 "" "") none =
      .response 400 (Json.obj [("error", Json.str "Invalid JSON")]) ∧
    handle_messages "weather_stdio.py" (fun _ => .completed 0 "" "")
        (some (Json.obj [("tool_name", Json.str "get_alerts")])) =
      .response 400 (Json.obj [("error", Json.str missingFieldMsg)]) ∧
    is4xx 400 ∧
    (∃ pre post, missingFieldMsg = pre ++ "session_id" ++ post) ∧
    (∃ pre post, missingFieldMsg = pre ++ "tool_name" ++ post) :=
  missing_field_yields_400 "weather_stdio.py" (fun _ => .completed 0 "" "")
    [("tool_name", Json.str "get_alerts")] (Or.inl rfl)

/-- C7, counterexample: a POST naming the unrecognized tool `no_such_tool`
makes the weather child crash (`NameError`, exit 1), and the dispatcher
answers with a **200** response whose body has a `result` field and no
`error` field — under the spec's own response taxonomy that is a transport
success, not a client-facing error response. -/
theorem unknown_tool_gives_200_result :
    handle_messages "weather_stdio.py" (weather_env (fun _ _ => .ok "text"))
        (some (requestBody "s1" "no_such_tool" [])) =
      .response 200 (Json.obj [("result",
        Json.str ("MCP server exited with code 1\n" ++ nameErrMsg))]) ∧
    ¬ is4xx 200 ∧
    jget [("result", Json.str ("MCP server exited with code 1\n" ++ nameErrMsg))]
      "error" = none :=
  ⟨rfl, by simp [is4xx], rfl⟩

/-- C7, amended: an unrecognized `tool_name` crashes only the per-request
child process (`NameError` at `if results:`, exit code 1); the relay itself
does not crash: it returns a 200 transport-success whose `result` text
carries the child-failure diagnostic, and an immediately following request
for a recognized tool is served normally. -/
theorem unknown_tool_crash_contained (sp sid t s2 : String)
    (eval : String → Json → ToolEval) (args : List (String × Json))
    (hsid : sid ≠ "") (ht : t ≠ "")
    (hf : t ≠ "get_forecast") (ha : t ≠ "get_alerts") :
    handle_messages sp (weather_env eval) (some (requestBody sid t args)) =
      .response 200 (Json.obj [("result",
        Json.str ("MCP server exited with code " ++ toString (1 : Int) ++ "\n"
          ++ nameErrMsg))]) ∧
    handle_messages sp (weather_env (fun _ _ => .ok s2))
        (some (requestBody sid "get_alerts" args)) =
      .response 200 (Json.obj [("result",
        Json.str (pyStrip (weather_tool_stdout "results" s2))) ]) := by
  constructor
  · rw [dispatch_valid sp _ sid t args hsid ht]
    simp [run_mcp_tool, run_mcp_tool_try, catchRun, wrap_run, weather_env,
      weather_step, weather_handle, mcp_input, pyGet, jget, pySetItem,
      Json.eqStr, Except.bind, bind, pure, Except.pure, hf, ha]
  · rw [dispatch_valid sp _ sid "get_alerts" args hsid (by decide)]
    simp [run_mcp_tool, run_mcp_tool_try, catchRun, wrap_run, weather_env,
      weather_step, weather_handle, mcp_input, pyGet, jget, pySetItem,
      Json.eqStr, Except.bind, bind, pure, Except.pure]

/-- Witness for `unknown_tool_crash_contained` at the tool name
`frobnicate`. -/
theorem unknown_tool_crash_contained_witness :
    handle_messages "weather_stdio.py" (weather_env (fun _ _ => .ok "x"))
        (some (requestBody "s1" "frobnicate" [])) =
      .response 200 (Json.obj [("result",
        Json.str ("MCP server exited with code " ++ toString (1 : Int) ++ "\n"
          ++ nameErrMsg))]) ∧
    handle_messages "weather_stdio.py" (weather_env (fun _ _ => .ok "alerts"))
        (some (requestBody "s1" "get_alerts" [])) =
      .response 200 (Json.obj [("result",
        Json.str (pyStrip (weather_tool_stdout "results" "alerts"))) ]) :=
  unknown_tool_crash_contained "weather_stdio.py" "s1" "frobnicate" "alerts"
    (fun _ _ => .ok "x") [] (by decide) (by decide) (by decide) (by decide)

/-- C9: `run_mcp_tool` is total at its interface.  Every `Exception` its
body can raise (missing handler file, spawn failure, or any other) is
caught and converted into an error string, so no call ever surfaces an
exception; whenever the child terminates the call returns a string; and a
request reaching the tool-execution step with a terminating child always
gets the 200 success response — the 500 internal-fault branch of
`handle_messages` is unreachable via tool execution. -/
theorem run_mcp_tool_total (sp : String) (env : Json → SpawnOutcome)
    (tool_name tool_args : Json) (sid tn out err : String) (rc : Int)
    (args : List (String × Json)) (hsid : sid ≠ "") (htn : tn ≠ "") :
    (∀ e, run_mcp_tool sp env tool_name tool_args ≠ .raises e) ∧
    (env (mcp_input tool_name tool_args) ≠ .hangs →
      ∃ s, run_mcp_tool sp env tool_name tool_args = .returns s) ∧
    (∃ s, handle_messages sp (fun _ => .completed rc out err)
          (some (requestBody sid tn args)) =
        .response 200 (Json.obj [("result", Json.str s)])) := by
  refine ⟨?_, ?_, ?_⟩
  · intro e
    unfold run_mcp_tool run_mcp_tool_try
    cases env (mcp_input tool_name tool_args) with
    | fileNotFound => simp [catchRun]
    | raised m => simp [catchRun]
    | hangs => simp [catchRun]
    | completed rc2 out2 err2 => by_cases h2 : rc2 = 0 <;> simp [catchRun, h2]
  · intro h
    unfold run_mcp_tool run_mcp_tool_try
    cases henv : env (mcp_input tool_name tool_args) with
    | fileNotFound => exact ⟨_, rfl⟩
    | raised m => exact ⟨_, rfl⟩
    | hangs => exact absurd henv h
    | completed rc2 out2 err2 =>
        by_cases h2 : rc2 = 0
        · exact ⟨pyStrip out2, by simp [catchRun, h2]⟩
        · exact ⟨"MCP server exited with code " ++ toString rc2 ++ "\n" ++ err2,
            by simp [catchRun, h2]⟩
  · rw [dispatch_valid sp _ sid tn args hsid htn]
    by_cases h : rc = 0
    · exact ⟨pyStrip out, by simp [run_mcp_tool, run_mcp_tool_try, catchRun, wrap_run, h]⟩
    · exact ⟨"MCP server exited with code " ++ toString rc ++ "\n" ++ err,
        by simp [run_mcp_tool, run_mcp_tool_try, catchRun, wrap_run, h]⟩

/-- Witness for `run_mcp_tool_total` at a concrete request and child. -/
theorem run_mcp_tool_total_witness :
    (∀ e, run_mcp_tool "weather_stdio.py" (fun _ => .completed 0 "ok" "")
      (Json.str "get_alerts") (Json.obj []) ≠ .raises e) ∧
    ((fun _ => SpawnOutcome.completed 0 "ok" "")
        (mcp_input (Json.str "get_alerts") (Json.obj [])) ≠ .hangs →
      ∃ s, run_mcp_tool "weather_stdio.py" (fun _ => .completed 0 "ok" "")
        (Json.str "get_alerts") (Json.obj []) = .returns s) ∧
    (∃ s, handle_messages "weather_stdio.py" (fun _ => .completed 0 "ok" "")
          (some (requestBody "s1" "get_alerts" [])) =
        .response 200 (Json.obj [("result", Json.str s)])) :=
  run_mcp_tool_total "weather_stdio.py" (fun _ => .completed 0 "ok" "")
    (Json.str "get_alerts") (Json.obj []) "s1" "get_alerts" "ok" "" 0 []
    (by decide) (by decide)

/-- C10: the dispatcher reads `session_id` and `tool_name` only at the top
level of the body: a JSON-RPC style body nesting them under `params` (as the
repository's own client sends) gets 400; when `arguments` is absent the tool
is invoked with the empty dict as default, so it receives exactly
`{"session_id": sid}`; and the injected `session_id` overwrites any
`session_id` the caller placed inside `arguments`. -/
theorem fields_read_at_top_level_only (sp : String) (env : Json → SpawnOutcome)
    (sid tn : String) (args : List (String × Json)) (a b p : Json)
    (hsid : sid ≠ "") (htn : tn ≠ "") :
    handle_messages sp env
        (some (Json.obj [("jsonrpc", a), ("method", b), ("params", p)])) =
      .response 400 (Json.obj [("error", Json.str missingFieldMsg)]) ∧
    handle_messages sp env
        (some (Json.obj [("session_id", Json.str sid), ("tool_name", Json.str tn)])) =
      wrap_run (run_mcp_tool sp env (Json.str tn)
        (Json.obj [("session_id", Json.str sid)])) ∧
    handle_messages sp env (some (requestBody sid tn args)) =
      wrap_run (run_mcp_tool sp env (Json.str tn)
        (Json.obj (setKey args "session_id" (Json.str sid)))) ∧
    jget (setKey args "session_id" (Json.str sid)) "session_id" =
      some (Json.str sid) := by
  refine ⟨?_, dispatch_valid_noargs sp env sid tn hsid htn,
    dispatch_valid sp env sid tn args hsid htn, jget_setKey_self args _ _⟩
  simp [handle_messages, handle_messages_try, pyGet, jget, Json.truthy,
    Except.bind, bind, pure, Except.pure]

/-- Witness for `fields_read_at_top_level_only` on the body the repository's
groq client sends. -/
theorem fields_read_at_top_level_only_witness :
    handle_messages "weather_stdio.py" (fun _ => .completed 0 "ok" "")
        (some (Json.obj [("jsonrpc", Json.str "2.0"),
          ("method", Json.str "tools/call"),
          ("params", Json.obj [("session_id", Json.str "s1"),
            ("tool_name", Json.str "get_forecast"),
            ("arguments", Json.obj [("latitude", Json.num 34),
              ("longitude", Json.num (-118))])])])) =
      .response 400 (Json.obj [("error", Json.str missingFieldMsg)]) ∧
    handle_messages "weather_stdio.py" (fun _ => .completed 0 "ok" "")
        (some (Json.obj [("session_id", Json.str "s1"),
          ("tool_name", Json.str "get_forecast")])) =
      wrap_run (run_mcp_tool "weather_stdio.py" (fun _ => .completed 0 "ok" "")
        (Json.str "get_forecast") (Json.obj [("session_id", Json.str "s1")])) ∧
    handle_messages "weather_stdio.py" (fun _ => .completed 0 "ok" "")
        (some (requestBody "s1" "get_forecast"
          [("session_id", Json.str "spoofed")])) =
      wrap_run (run_mcp_tool "weather_stdio.py" (fun _ => .completed 0 "ok" "")
        (Json.str "get_forecast")
        (Json.obj (setKey [("session_id", Json.str "spoofed")] "session_id"
          (Json.str "s1")))) ∧
    jget (setKey [("session_id", Json.str "spoofed")] "session_id"
      (Json.str "s1")) "session_id" = some (Json.str "s1") :=
  fields_read_at_top_level_only "weather_stdio.py" (fun _ => .completed 0 "ok" "")
    "s1" "get_forecast" [("session_id", Json.str "spoofed")]
    (Json.str "2.0") (Json.str "tools/call")
    (Json.obj [("session_id", Json.str "s1"),
      ("tool_name", Json.str "get_forecast"),
      ("arguments", Json.obj [("latitude", Json.num 34),
        ("longitude", Json.num (-118))])])
    (by decide) (by decide)

end McpSse
